import Mathlib

/-!
Verification of the MetronAuditOps Population Orchestrator
(backend/app/scheduler.py and its callers in backend/app/api/routes.py).

The Python module keeps per-date state in plain dictionaries, guards the
population pipeline with an asyncio lock, records completed runs in a
DynamoDB-backed run ledger, and throttles enrichment retries through a
JSON-file retry budget.  Each function below is a shallow embedding of
the corresponding Python function; external collaborators (S3 download,
DynamoDB queries, the AI pipeline) are abstracted as explicit inputs, an
`Except Unit` value standing for a call that may raise.
-/

namespace MetronAuditOps

/-! ## Association-list model of Python dictionaries -/

/-- Lookup in an association list, mirroring Python `dict.get(key)`. -/
def lookupMap {α : Type} (m : List (String × α)) (k : String) : Option α :=
  match m with
  | [] => none
  | (k', v) :: t => if k' = k then some v else lookupMap t k

/-- Key assignment `d[key] = v` on an association list: replaces the first
binding of `k`, or appends one. -/
def insertMap {α : Type} (m : List (String × α)) (k : String) (v : α) :
    List (String × α) :=
  match m with
  | [] => [(k, v)]
  | (k', v') :: t => if k' = k then (k, v) :: t else (k', v') :: insertMap t k v

theorem lookupMap_insertMap {α : Type} (m : List (String × α)) (k k' : String)
    (v : α) :
    lookupMap (insertMap m k v) k' = if k = k' then some v else lookupMap m k' := by
  induction m with
  | nil => simp [insertMap, lookupMap]
  | cons hd t ih =>
    obtain ⟨k₀, v₀⟩ := hd
    by_cases h0 : k₀ = k
    · subst h0
      simp only [insertMap, if_pos rfl, lookupMap]
      by_cases h1 : k₀ = k'
      · subst h1; simp
      · simp [h1]
    · simp only [insertMap, if_neg h0, lookupMap, ih]
      by_cases h1 : k₀ = k'
      · subst h1
        have h2 : ¬ (k = k₀) := fun h => h0 h.symm
        simp [h2]
      · simp [h1]

/-! ## Per-Date State Store (scheduler.py lines 25-96) -/

/-- Propagation state for one date key: `{running: bool, noData: bool}`. -/
structure PropState where
  running : Bool
  noData : Bool
  deriving DecidableEq, Repr

/-- The default propagation state used when a date key is absent
(scheduler.py line 58). -/
def defaultPropState : PropState := ⟨false, false⟩

/-- The module-level `_date_propagation_state` dictionary. -/
abbrev PropMap := List (String × PropState)

/-- `key = date_str or "latest"` (scheduler.py lines 57, 64). -/
def propKey (dateStr : Option String) : String := dateStr.getD "latest"

/-- `get_propagation_state` (scheduler.py lines 56-58): a plain
`dict.get(key, default)` — it returns the default for an absent key and
returns the map unchanged (no entry is created). -/
def get_propagation_state (m : PropMap) (dateStr : Option String) :
    PropState × PropMap :=
  ((lookupMap m (propKey dateStr)).getD defaultPropState, m)

/-- `set_propagation_state` (scheduler.py lines 61-70): reads the current
state (default if absent), merges only the provided fields, and assigns the
result back into the dictionary.  A `none` argument means the keyword was
not passed. -/
def set_propagation_state (m : PropMap) (dateStr : Option String)
    (running : Option Bool) (noData : Option Bool) : PropMap :=
  let k := propKey dateStr
  let state := (lookupMap m k).getD defaultPropState
  let state := match running with
    | some r => { state with running := r }
    | none => state
  let state := match noData with
    | some n => { state with noData := n }
    | none => state
  insertMap m k state

/-- Pan-identification coverage counters. -/
structure Coverage where
  total : Nat
  withPan : Nat
  deriving DecidableEq, Repr

/-- AI-enrichment state for one date key (scheduler.py lines 76-81). -/
structure AiState where
  running : Bool
  completedAt : Option String
  lastError : Option String
  coverage : Coverage
  deriving DecidableEq, Repr

/-- The default AI state created on first read (scheduler.py lines 76-81). -/
def defaultAiState : AiState := ⟨false, none, none, ⟨0, 0⟩⟩

/-- The module-level `_ai_state` dictionary. -/
abbrev AiMap := List (String × AiState)

/-- `get_ai_state` (scheduler.py lines 73-83): returns the stored state, or
creates and stores the default when the key is absent. -/
def get_ai_state (m : AiMap) (dateStr : String) : AiState × AiMap :=
  match lookupMap m dateStr with
  | some s => (s, m)
  | none => (defaultAiState, insertMap m dateStr defaultAiState)

/-- The field merge performed by `set_ai_state` (scheduler.py lines 90-95):
each field is overwritten exactly when its keyword argument is not `None`. -/
def mergeAiState (st : AiState) (running : Option Bool)
    (completedAt : Option String) (lastError : Option String) : AiState :=
  let st := match running with
    | some r => { st with running := r }
    | none => st
  let st := match completedAt with
    | some c => { st with completedAt := some c }
    | none => st
  match lastError with
  | some e => { st with lastError := some e }
  | none => st

/-- `set_ai_state` (scheduler.py lines 86-96): fetches via `get_ai_state`
(creating the entry if absent), merges the provided fields, and assigns the
result back. -/
def set_ai_state (m : AiMap) (dateStr : String) (running : Option Bool)
    (completedAt : Option String) (lastError : Option String) : AiMap :=
  let p := get_ai_state m dateStr
  insertMap p.2 dateStr (mergeAiState p.1 running completedAt lastError)

/-- The AI state observed for a key (what a subsequent read returns). -/
def aiStateOf (m : AiMap) (dateStr : String) : AiState :=
  (lookupMap m dateStr).getD defaultAiState

theorem get_ai_state_fst (m : AiMap) (d : String) :
    (get_ai_state m d).1 = aiStateOf m d := by
  unfold get_ai_state aiStateOf
  cases lookupMap m d <;> simp

/-- One recorded call to `set_ai_state`, with `none` meaning the keyword was
not passed. -/
structure AiCall where
  dateStr : String
  running : Option Bool
  completedAt : Option String
  lastError : Option String

/-- Replay a sequence of `set_ai_state` calls against the store. -/
def applyAiCalls (m : AiMap) (calls : List AiCall) : AiMap :=
  calls.foldl (fun m c => set_ai_state m c.dateStr c.running c.completedAt c.lastError) m

theorem aiStateOf_set_ai_state (m : AiMap) (d d' : String) (r : Option Bool)
    (c l : Option String) :
    aiStateOf (set_ai_state m d' r c l) d =
      if d' = d then mergeAiState (aiStateOf m d') r c l else aiStateOf m d := by
  unfold set_ai_state get_ai_state aiStateOf
  cases h : lookupMap m d' with
  | some s =>
    simp only [lookupMap_insertMap, h, Option.getD_some]
    by_cases hd : d' = d <;> simp [hd]
  | none =>
    by_cases hd : d' = d
    · subst hd; simp [lookupMap_insertMap, h]
    · simp [lookupMap_insertMap, hd]

theorem mergeAiState_completedAt_isSome (st : AiState) (r : Option Bool)
    (c l : Option String) (h : st.completedAt.isSome = true) :
    (mergeAiState st r c l).completedAt.isSome = true := by
  cases r <;> cases c <;> cases l <;> simp_all [mergeAiState]

theorem mergeAiState_lastError_isSome (st : AiState) (r : Option Bool)
    (c l : Option String) (h : st.lastError.isSome = true) :
    (mergeAiState st r c l).lastError.isSome = true := by
  cases r <;> cases c <;> cases l <;> simp_all [mergeAiState]

theorem applyAiCalls_preserves_isSome (calls : List AiCall) (m : AiMap)
    (d : String) :
    ((aiStateOf m d).completedAt.isSome = true →
      (aiStateOf (applyAiCalls m calls) d).completedAt.isSome = true) ∧
    ((aiStateOf m d).lastError.isSome = true →
      (aiStateOf (applyAiCalls m calls) d).lastError.isSome = true) := by
  induction calls generalizing m with
  | nil => exact ⟨fun h => h, fun h => h⟩
  | cons call rest ih =>
    have hstep := aiStateOf_set_ai_state m d call.dateStr call.running
      call.completedAt call.lastError
    have happ : applyAiCalls m (call :: rest) =
        applyAiCalls (set_ai_state m call.dateStr call.running call.completedAt
          call.lastError) rest := rfl
    rw [happ]
    constructor
    · intro h
      refine (ih _).1 ?_
      rw [hstep]
      by_cases hd : call.dateStr = d
      · rw [if_pos hd, hd]
        exact mergeAiState_completedAt_isSome _ _ _ _ h
      · rw [if_neg hd]; exact h
    · intro h
      refine (ih _).2 ?_
      rw [hstep]
      by_cases hd : call.dateStr = d
      · rw [if_pos hd, hd]
        exact mergeAiState_lastError_isSome _ _ _ _ h
      · rw [if_neg hd]; exact h

/-- Claim C10 (amended): `set_ai_state` treats `None` as "field not
provided", so once `completedAt` or `lastError` holds a non-null value no
sequence of `set_ai_state` calls can reset it to null.  (The stronger
reading of the claim — that a recorded `lastError` *string* persists across
later successful runs — fails, see the counterexample: the run-start call in
routes.py passes `lastError=""`, overwriting the string.) -/
theorem c10_ai_state_never_reset_to_null (m : AiMap) (calls : List AiCall)
    (d : String)
    (hc : (aiStateOf m d).completedAt.isSome = true)
    (he : (aiStateOf m d).lastError.isSome = true) :
    (aiStateOf (applyAiCalls m calls) d).completedAt.isSome = true ∧
    (aiStateOf (applyAiCalls m calls) d).lastError.isSome = true :=
  ⟨(applyAiCalls_preserves_isSome calls m d).1 hc,
   (applyAiCalls_preserves_isSome calls m d).2 he⟩

/-- Witness for `c10_ai_state_never_reset_to_null` at a concrete store. -/
theorem c10_ai_state_never_reset_to_null_witness :
    (aiStateOf (applyAiCalls
        [("2025-07-27", ⟨false, some "t0", some "boom", ⟨0, 0⟩⟩)]
        [⟨"2025-07-27", some true, none, none⟩]) "2025-07-27").completedAt.isSome = true ∧
    (aiStateOf (applyAiCalls
        [("2025-07-27", ⟨false, some "t0", some "boom", ⟨0, 0⟩⟩)]
        [⟨"2025-07-27", some true, none, none⟩]) "2025-07-27").lastError.isSome = true :=
  c10_ai_state_never_reset_to_null
    [("2025-07-27", ⟨false, some "t0", some "boom", ⟨0, 0⟩⟩)]
    [⟨"2025-07-27", some true, none, none⟩] "2025-07-27" (by decide) (by decide)

/-- The `set_ai_state` call sequence issued by a failed enrichment run
followed by a successful one (routes.py lines 151-166): each run starts with
`set_ai_state(date, running=True, lastError="")`, a failure ends with
`set_ai_state(date, running=False, lastError=str(e))`, and a success ends
with `set_ai_state(date, running=False, completedAt=<timestamp>)`. -/
def failedThenSuccessfulRunCalls : List AiCall :=
  [⟨"2025-07-27", some true, none, some ""⟩,
   ⟨"2025-07-27", some false, none, some "enrichment failed"⟩,
   ⟨"2025-07-27", some true, none, some ""⟩,
   ⟨"2025-07-27", some false, some "2025-07-28T01:00:00+00:00", none⟩]

/-- Counterexample to claim C10 as stated: the `lastError` string recorded by
a failed enrichment does **not** persist across a later successful run — the
later run's start call overwrites it with the empty string (it merely can
never return to null). -/
theorem c10_counterexample :
    (aiStateOf (applyAiCalls [] failedThenSuccessfulRunCalls)
        "2025-07-27").lastError = some "" ∧
    (aiStateOf (applyAiCalls [] failedThenSuccessfulRunCalls)
        "2025-07-27").lastError ≠ some "enrichment failed" := by
  constructor
  · decide
  · decide

/-- Claim C7 fails for the propagation store: reading a never-written key
with `get_propagation_state` returns the default but does **not** create the
entry in the map (scheduler.py line 58 is a plain `dict.get` with default). -/
theorem c7_counterexample :
    lookupMap (get_propagation_state ([] : PropMap) (some "2025-07-27")).2
      "2025-07-27" = none := by
  decide

/-- Claim C7 (amended): for a never-written date key, `get_propagation_state`
returns the default `{running:false, noData:false}` and leaves the map
unchanged (no entry is created), while `get_ai_state` returns the default
`{running:false, completedAt:null, lastError:null, coverage:{0,0}}` and does
create the entry. -/
theorem c7_default_states (pm : PropMap) (am : AiMap) (d : String)
    (hp : lookupMap pm (propKey (some d)) = none)
    (ha : lookupMap am d = none) :
    (get_propagation_state pm (some d)).1 = ⟨false, false⟩ ∧
    (get_propagation_state pm (some d)).2 = pm ∧
    (get_ai_state am d).1 = ⟨false, none, none, ⟨0, 0⟩⟩ ∧
    lookupMap (get_ai_state am d).2 d = some defaultAiState := by
  refine ⟨?_, rfl, ?_, ?_⟩
  · simp [get_propagation_state, hp, defaultPropState]
  · simp [get_ai_state, ha, defaultAiState]
  · simp [get_ai_state, ha, lookupMap_insertMap]

/-- Witness for `c7_default_states` on empty stores. -/
theorem c7_default_states_witness :
    (get_propagation_state ([] : PropMap) (some "2025-07-27")).1 = ⟨false, false⟩ ∧
    (get_propagation_state ([] : PropMap) (some "2025-07-27")).2 = [] ∧
    (get_ai_state ([] : AiMap) "2025-07-27").1 = ⟨false, none, none, ⟨0, 0⟩⟩ ∧
    lookupMap (get_ai_state ([] : AiMap) "2025-07-27").2 "2025-07-27" =
      some defaultAiState :=
  c7_default_states [] [] "2025-07-27" rfl rfl

/-! ## Smart Retry Engine (scheduler.py lines 787-929) -/

/-- One entry of the JSON retry-budget file `.ai_retry_state.json`
(scheduler.py lines 822-826): `entry.get("day")` may be absent, and
`attempts`/`last_ts` default to 0. -/
structure RetryEntry where
  day : Option String
  attempts : Nat
  last_ts : ℚ
  deriving DecidableEq

/-- The defaults used when a source has no entry yet
(scheduler.py lines 823-826). -/
def emptyRetryEntry : RetryEntry := ⟨none, 0, 0⟩

/-- `MAX_ATTEMPTS_PER_DAY` (scheduler.py line 794). -/
def MAX_ATTEMPTS_PER_DAY : Nat := 2

/-- `MIN_BACKOFF_SECONDS = 30 * 60` (scheduler.py line 795). -/
def MIN_BACKOFF_SECONDS : ℚ := 30 * 60

/-- Coverage data computed for one CSV source (scheduler.py lines 802-815):
the row count and the number of rows with no pan guess from any stage. -/
structure SourceCoverage where
  totalRows : Nat
  missing : Nat
  deriving DecidableEq

/-- `missing_ratio` (scheduler.py lines 812-815): `missing / total_rows`
when there are rows, else `0.0`. -/
def missingRatio (src : SourceCoverage) : ℚ :=
  if 0 < src.totalRows then (src.missing : ℚ) / (src.totalRows : ℚ) else 0

/-- The per-source decision of `_smart_retry_for_missing`
(scheduler.py lines 818-837): `true` exactly when the loop body reaches the
re-enrichment step for that source rather than `continue`-ing. -/
def _smart_retry_decision (entry : Option RetryEntry) (todayKey : String)
    (now : ℚ) (src : SourceCoverage) : Bool :=
  -- Thresholds (line 818): `if missing < 10 and missing_ratio < 0.10: continue`
  if src.missing < 10 ∧ missingRatio src < 1 / 10 then false
  else
    let e := entry.getD emptyRetryEntry
    -- Reset attempts if new day (line 829)
    let attempts := if e.day ≠ some todayKey then 0 else e.attempts
    -- `if attempts >= MAX_ATTEMPTS_PER_DAY: continue` (line 832)
    if MAX_ATTEMPTS_PER_DAY ≤ attempts then false
    -- `if (time.time() - float(last_ts)) < MIN_BACKOFF_SECONDS: continue` (line 836)
    else if now - e.last_ts < MIN_BACKOFF_SECONDS then false
    else true

/-- The attempts budget already consumed today, as the spec words it:
the stored count when the stored day is today, else 0 (reset). -/
def attemptsToday (entry : Option RetryEntry) (todayKey : String) : Nat :=
  match entry with
  | none => 0
  | some e => if e.day = some todayKey then e.attempts else 0

/-- Claim C5: for every source, the Smart Retry Engine re-runs enrichment
exactly when the source is under-covered (missing ≥ 10 rows, or a missing
ratio of at least 10%), fewer than 2 attempts are on the budget for the
current calendar day (the stored count resetting when the stored day is not
today), and at least 30 minutes have elapsed since the last attempt.  In
particular a source with `attempts = 2` recorded today is skipped regardless
of coverage shortfall. -/
theorem c5_smart_retry_budget_and_backoff (entry : Option RetryEntry)
    (todayKey : String) (now : ℚ) (src : SourceCoverage) :
    _smart_retry_decision entry todayKey now src = true ↔
      (10 ≤ src.missing ∨ 1 / 10 ≤ missingRatio src) ∧
      attemptsToday entry todayKey < 2 ∧
      30 * 60 ≤ now - (entry.getD emptyRetryEntry).last_ts := by
  have hatt : (if (entry.getD emptyRetryEntry).day ≠ some todayKey then 0
      else (entry.getD emptyRetryEntry).attempts) = attemptsToday entry todayKey := by
    cases entry with
    | none => simp [emptyRetryEntry, attemptsToday]
    | some e =>
      by_cases h : e.day = some todayKey <;> simp [attemptsToday, h]
  simp only [_smart_retry_decision]
  rw [hatt]
  by_cases h1 : src.missing < 10 ∧ missingRatio src < 1 / 10
  · simp only [if_pos h1, MAX_ATTEMPTS_PER_DAY, MIN_BACKOFF_SECONDS]
    constructor
    · intro h; exact absurd h (by simp)
    · rintro ⟨hc, -⟩
      rcases hc with hc | hc
      · exact absurd h1.1 (by omega)
      · exact absurd h1.2 (by linarith)
  · simp only [if_neg h1, MAX_ATTEMPTS_PER_DAY, MIN_BACKOFF_SECONDS]
    have hc : 10 ≤ src.missing ∨ 1 / 10 ≤ missingRatio src := by
      by_contra hn
      push_neg at hn
      exact h1 ⟨by omega, by linarith [hn.2]⟩
    by_cases h2 : 2 ≤ attemptsToday entry todayKey
    · simp only [if_pos h2]
      constructor
      · intro h; exact absurd h (by simp)
      · rintro ⟨-, h2', -⟩; omega
    · simp only [if_neg h2]
      by_cases h3 : now - (entry.getD emptyRetryEntry).last_ts < 30 * 60
      · simp only [if_pos h3]
        constructor
        · intro h; exact absurd h (by simp)
        · rintro ⟨-, -, h3'⟩; linarith
      · simp only [if_neg h3]
        push_neg at h2 h3
        exact ⟨fun _ => ⟨hc, h2, h3⟩, fun _ => by simp⟩

/-! ## UI-triggered smart retry debounce (scheduler.py lines 932-958)

`trigger_smart_retry_background` reads the module global
`_last_ui_trigger_ts` at its start (lines 940-942), returns immediately when
inside the 5-minute window (lines 942-944), otherwise runs the long
`_smart_retry_for_missing` scan (lines 946-955) and only afterwards stores
its own start time into the global (line 956).  The routes layer invokes
this entry point on a fresh daemon thread per trigger (routes.py lines
172-174, 509, 1059), so two triggers can overlap in time.  Each call is
therefore two separate steps on the shared global — the debounce check at
the call's start time, and the timestamp write after its scan — and a
second call whose check runs before the first call's write reads the stale
timestamp. -/

/-- Program counter of one UI trigger call: about to run the debounce check,
scanning with the global not yet written, finished (global written), or
dropped inside the window. -/
inductive TriggerPhase
  | check
  | scanning
  | finished
  | dropped
  deriving DecidableEq, Repr

/-- Two UI trigger calls with start times `t1` and `t2` sharing the module
global `_last_ui_trigger_ts`; `scans1`/`scans2` count the source scans each
call performs. -/
structure TriggerSys where
  lastUiTriggerTs : ℚ
  pc1 : TriggerPhase
  pc2 : TriggerPhase
  scans1 : Nat
  scans2 : Nat
  deriving DecidableEq, Repr

/-- Both calls pending, the global at its current value (module
initialisation is `0.0`, scheduler.py line 33). -/
def initTriggerSys (last0 : ℚ) : TriggerSys := ⟨last0, .check, .check, 0, 0⟩

/-- One step of the named call: the check (lines 940-944) drops the call
when its start time is within 300 s of the stored timestamp and otherwise
begins the scan; a scanning call then finishes by writing its start time to
the global (line 956). -/
def triggerStep (t1 t2 : ℚ) (s : TriggerSys) (firstCall : Bool) : TriggerSys :=
  if firstCall then
    match s.pc1 with
    | .check =>
      if t1 - s.lastUiTriggerTs < 300 then { s with pc1 := .dropped }
      else { s with pc1 := .scanning, scans1 := s.scans1 + 1 }
    | .scanning => { s with pc1 := .finished, lastUiTriggerTs := t1 }
    | .finished => s
    | .dropped => s
  else
    match s.pc2 with
    | .check =>
      if t2 - s.lastUiTriggerTs < 300 then { s with pc2 := .dropped }
      else { s with pc2 := .scanning, scans2 := s.scans2 + 1 }
    | .scanning => { s with pc2 := .finished, lastUiTriggerTs := t2 }
    | .finished => s
    | .dropped => s

/-- Execute an interleaving of the two calls' steps. -/
def triggerRun (last0 t1 t2 : ℚ) (sched : List Bool) : TriggerSys :=
  sched.foldl (triggerStep t1 t2) (initTriggerSys last0)

/-- Claim C6 fails on the code (code bug): a first trigger at t1 = 1000 s
passes the check and starts scanning; a second trigger 60 seconds later —
inside the 5-minute window — runs its check while the first scan is still
in flight (the write at scheduler.py line 956 not yet executed), reads the
stale timestamp, and scans as well.  Two scans result from two calls within
the window, where the claim requires exactly one scan with the second call
dropped. -/
theorem c6_overlapping_triggers_both_scan :
    ((1060 : ℚ) - 1000 < 300) ∧
    (triggerRun 0 1000 1060 [true, false, true, false]).scans1 = 1 ∧
    (triggerRun 0 1000 1060 [true, false, true, false]).scans2 = 1 ∧
    (triggerRun 0 1000 1060 [true, false, true, false]).pc1 = .finished ∧
    (triggerRun 0 1000 1060 [true, false, true, false]).pc2 = .finished ∧
    (triggerRun 0 1000 1060 [true, false, true, false]).scans1 +
      (triggerRun 0 1000 1060 [true, false, true, false]).scans2 ≠ 1 := by
  refine ⟨by norm_num, ?_, ?_, ?_, ?_, ?_⟩ <;>
    norm_num [triggerRun, triggerStep, initTriggerSys]

/-- Witness for `c5_smart_retry_budget_and_backoff`: a fresh under-covered
source is retried. -/
theorem c5_smart_retry_witness :
    _smart_retry_decision none "2025-07-27" 10000 ⟨50, 20⟩ = true ↔
      (10 ≤ (20 : Nat) ∨ 1 / 10 ≤ missingRatio ⟨50, 20⟩) ∧
      attemptsToday none "2025-07-27" < 2 ∧
      30 * 60 ≤ (10000 : ℚ) - (Option.getD none emptyRetryEntry).last_ts :=
  c5_smart_retry_budget_and_backoff none "2025-07-27" 10000 ⟨50, 20⟩

/-! ## Run-status checks (scheduler.py lines 1125-1258, 412-443)

DynamoDB queries are abstracted as `Except Unit` inputs: `.error ()` is a
query that raises, `.ok items` a query returning `items`. -/

/-- `_has_recent_successful_run` (scheduler.py lines 1125-1169), as a
function of its scan-data query: non-empty items ⇒ `True`; empty ⇒ `False`;
a raised exception ⇒ `True` ("on error, assume run was successful"). -/
def _has_recent_successful_run (scanResp : Except Unit (List String)) : Bool :=
  match scanResp with
  | .ok items => !items.isEmpty
  | .error _ => true

/-- `_is_today_populated` (scheduler.py lines 412-443), as a function of its
paginated scan: returns `true` if any of the first `MAX_PAGES = 5` pages has
an item, `false` otherwise, and `true` when the scan raises ("on failure to
check, assume populated"). -/
def _is_today_populated (scanPages : Except Unit (List (List String))) : Bool :=
  match scanPages with
  | .ok pages => (pages.take 5).any (fun p => !p.isEmpty)
  | .error _ => true

/-- One item returned by the run-tracking query, keeping the only field the
status check reads. -/
structure TrackItem where
  status : String
  deriving DecidableEq

/-- `_check_run_status` (scheduler.py lines 1202-1258), as a function of the
run-tracking query and the scan-data query used by the
`_has_recent_successful_run` fallback.  Only the returned `status` string is
modelled; a slot counts as missed exactly when it is not `"completed"`. -/
def _check_run_status (trackingResp : Except Unit (List TrackItem))
    (scanResp : Except Unit (List String)) : String :=
  match trackingResp with
  | .ok items =>
    -- lines 1225-1233: any completed run record wins
    if items.any (fun it => it.status = "completed") then "completed"
    -- lines 1235-1242: fall back to the data-presence heuristic
    else if _has_recent_successful_run scanResp then "completed"
    else "not_found"
  | .error _ =>
    -- lines 1246-1258: on error, try the data-presence fallback, else "error"
    if _has_recent_successful_run scanResp then "completed"
    else "error"

/-! ## Catch-Up Detector (scheduler.py lines 1033-1092, 1297-1370) -/

/-- The fixed daily schedule `expected_runs = [(16, 0), (20, 0)]`
(scheduler.py lines 1041-1044). -/
def expected_runs : List (Nat × Nat) := [(16, 0), (20, 0)]

/-- Minutes after midnight of a slot or the current time. -/
def minutesOfDay (hour minute : Nat) : Nat := 60 * hour + minute

/-- The missed slots computed by `_check_and_catch_up_missed_runs`
(scheduler.py lines 1048-1065): slots whose time is already past and whose
`_check_run_status` result is not `"completed"`.  `runStatus` abstracts the
per-slot status lookup. -/
def missed_runs_for (nowMinutes : Nat) (runStatus : Nat × Nat → String) :
    List (Nat × Nat) :=
  expected_runs.filter
    (fun s => decide (minutesOfDay s.1 s.2 < nowMinutes) &&
      decide (runStatus s ≠ "completed"))

/-- An observable action of the catch-up loop. -/
inductive CatchUpEvent
  | populate
  | record (runType : String) (slot : Nat × Nat)
  deriving DecidableEq

/-- The catch-up loop body (scheduler.py lines 1072-1087 and 1331-1347):
for each missed slot, `await populate_today_audits()` and then record a run
of the given type for that slot. -/
def catchUpLoop (missed : List (Nat × Nat)) (runType : String) :
    List CatchUpEvent :=
  match missed with
  | [] => []
  | s :: rest => .populate :: .record runType s :: catchUpLoop rest runType

/-- `_check_and_catch_up_missed_runs` (scheduler.py lines 1033-1092): the
events it performs, given the clock and the per-slot status. -/
def _check_and_catch_up_missed_runs (nowMinutes : Nat)
    (runStatus : Nat × Nat → String) : List CatchUpEvent :=
  catchUpLoop (missed_runs_for nowMinutes runStatus) "catchup"

/-- `manual_catch_up_runs` (scheduler.py lines 1297-1370): same detection,
recording `"manual_catchup"` runs, and reporting `total_missed`. -/
def manual_catch_up_runs (nowMinutes : Nat)
    (runStatus : Nat × Nat → String) : List CatchUpEvent × Nat :=
  let missed := missed_runs_for nowMinutes runStatus
  (catchUpLoop missed "manual_catchup", missed.length)

/-- Count the population-pipeline invocations among catch-up events. -/
def countPopulates (evs : List CatchUpEvent) : Nat :=
  (evs.filter (fun e => e = .populate)).length

theorem catchUpLoop_counts (missed : List (Nat × Nat)) (runType : String) :
    countPopulates (catchUpLoop missed runType) = missed.length ∧
    (catchUpLoop missed runType).filter
        (fun e => match e with | .record _ _ => true | _ => false) =
      missed.map (fun s => .record runType s) := by
  induction missed with
  | nil => simp [catchUpLoop, countPopulates]
  | cons s rest ih =>
    simp only [catchUpLoop, countPopulates, List.filter, List.length, List.map]
    constructor
    · simpa [countPopulates] using ih.1
    · simpa using ih.2

/-- Counterexample to claim C2 as stated: at 21:00 with neither slot showing
a completed run, both slots are missed and the detector invokes the
population pipeline twice — once per missed slot — not exactly once. -/
theorem c2_counterexample :
    missed_runs_for 1260 (fun _ => "not_found") ≠ [] ∧
    countPopulates (_check_and_catch_up_missed_runs 1260
      (fun _ => "not_found")) = 2 ∧
    countPopulates (_check_and_catch_up_missed_runs 1260
      (fun _ => "not_found")) ≠ 1 := by
  refine ⟨?_, ?_, ?_⟩ <;> decide

/-- Claim C2 (amended): for every set of missed slots detected on a day,
the Catch-Up Detector invokes the population pipeline once **per missed
slot** (not once in total), and after each invocation records a RunRecord of
type `catchup` (`manual_catchup` when user-initiated) for that slot, with
`total_missed` reporting the number of missed slots. -/
theorem c2_catch_up_once_per_missed_slot (nowMinutes : Nat)
    (runStatus : Nat × Nat → String) :
    countPopulates (_check_and_catch_up_missed_runs nowMinutes runStatus) =
      (missed_runs_for nowMinutes runStatus).length ∧
    (_check_and_catch_up_missed_runs nowMinutes runStatus).filter
        (fun e => match e with | .record _ _ => true | _ => false) =
      (missed_runs_for nowMinutes runStatus).map
        (fun s => .record "catchup" s) ∧
    countPopulates (manual_catch_up_runs nowMinutes runStatus).1 =
      (missed_runs_for nowMinutes runStatus).length ∧
    (manual_catch_up_runs nowMinutes runStatus).1.filter
        (fun e => match e with | .record _ _ => true | _ => false) =
      (missed_runs_for nowMinutes runStatus).map
        (fun s => .record "manual_catchup" s) ∧
    (manual_catch_up_runs nowMinutes runStatus).2 =
      (missed_runs_for nowMinutes runStatus).length := by
  refine ⟨(catchUpLoop_counts _ _).1, (catchUpLoop_counts _ _).2,
    (catchUpLoop_counts _ _).1, (catchUpLoop_counts _ _).2, rfl⟩

/-- Counterexample to claim C9 as stated: when the run-tracking query raises
but the scan-data query succeeds and finds no items, `_check_run_status`
reports `"error"`, not `"completed"` — and a past slot with that status is
treated as missed, so this collaborator failure does cause the Catch-Up
Detector to invoke the population pipeline. -/
theorem c9_counterexample :
    _check_run_status (.error ()) (.ok []) = "error" ∧
    _check_run_status (.error ()) (.ok []) ≠ "completed" ∧
    countPopulates (_check_and_catch_up_missed_runs 1020
      (fun _ => _check_run_status (.error ()) (.ok []))) = 1 := by
  refine ⟨?_, ?_, ?_⟩ <;> decide

/-- Claim C9 (amended): a raised scan-data query makes
`_has_recent_successful_run` return `true` and `_is_today_populated` return
`true`; and when the run-tracking query raises, `_check_run_status` returns
`"completed"` exactly when the scan-data fallback reports success (data
present, or the scan itself raising) — when the scan-data query succeeds
with no items it returns `"error"` instead, and the slot counts as missed. -/
theorem c9_status_checks_assume_success (scanResp : Except Unit (List String)) :
    _has_recent_successful_run (.error ()) = true ∧
    _is_today_populated (.error ()) = true ∧
    _check_run_status (.error ()) scanResp =
      (if _has_recent_successful_run scanResp then "completed" else "error") := by
  refine ⟨rfl, rfl, rfl⟩

/-! ## Population orchestrator body (scheduler.py lines 133-358)

`populate_audits_for_date` is modelled past its job-lock guard (the guard is
modelled separately below): its collaborators are abstracted in a
`PopulateEnv`, and its observable behaviour is the updated propagation
store, the ordered list of actions it performed, and whether it returned on
the no-data short-circuit. -/

/-- Observable actions of one population invocation, in program order. -/
inductive RunEvent
  | setState (running : Option Bool) (noData : Option Bool)
  | download
  | extract
  | aiPipeline (src : String)
  | ingest (src : String)
  | verifyCounts
  | verifySample
  | recordRun (runType : String)
  | smartRetryPass
  deriving DecidableEq

/-- Collaborator behaviour for one invocation.  `prepOk` is the lazy imports
and `load_config()` before any state write (lines 148-161); `downloadResult`
is `start_download(_for_date)` (`.error ()` = raised, `.ok b` = returned
`b`); `extractOk` covers extraction, directory listing and
`ScanDynamoManager()` construction (lines 186-211); `csvFiles` are the CSVs
found under the audit directory; `runAi` is the `run_ai` argument.
Ingestion, verification, run recording and the smart-retry pass each catch
their own exceptions (lines 267-268, 288-289, 559-560, 1198-1199, 351-352)
and so cannot reach the outer handler. -/
structure PopulateEnv where
  prepOk : Bool
  downloadResult : Except Unit Bool
  extractOk : Bool
  csvFiles : List String
  runAi : Bool

/-- Result of one population invocation. -/
structure PopulateResult where
  map : PropMap
  events : List RunEvent
  ingested : List String
  earlyReturn : Bool

/-- The per-file loop body events (lines 214-268): optional AI pipeline,
then `manager.populate_csv`. -/
def perFileEvents (runAi : Bool) (csvs : List String) : List RunEvent :=
  csvs.flatMap (fun f =>
    (if runAi then [RunEvent.aiPipeline f] else []) ++ [RunEvent.ingest f])

/-- `populate_audits_for_date` past the job-lock guard
(scheduler.py lines 146-358). -/
def populate_audits_for_date (m : PropMap) (dateStr : Option String)
    (env : PopulateEnv) : PopulateResult :=
  if env.prepOk = false then
    -- an exception before the first state write lands in the handler at
    -- line 357: set_propagation_state(date_str, running=False)
    { map := set_propagation_state m dateStr (some false) none,
      events := [.setState (some false) none],
      ingested := [], earlyReturn := false }
  else
    -- line 164: set_propagation_state(date_str, running=True)
    let m1 := set_propagation_state m dateStr (some true) none
    match env.downloadResult with
    | .error _ =>
      -- download raised; handler at line 357
      { map := set_propagation_state m1 dateStr (some false) none,
        events := [.setState (some true) none, .setState (some false) none],
        ingested := [], earlyReturn := false }
    | .ok false =>
      -- lines 169-184: no files found; mark noData and exit early
      { map := set_propagation_state m1 dateStr (some false) (some true),
        events := [.setState (some true) none, .download,
          .setState (some false) (some true)],
        ingested := [], earlyReturn := true }
    | .ok true =>
      if env.extractOk = false then
        -- extraction or manager construction raised; handler at line 357
        { map := set_propagation_state m1 dateStr (some false) none,
          events := [.setState (some true) none, .download,
            .setState (some false) none],
          ingested := [], earlyReturn := false }
      else if env.csvFiles.isEmpty then
        -- lines 206-209: no CSVs; mark noData and exit early
        { map := set_propagation_state m1 dateStr (some false) (some true),
          events := [.setState (some true) none, .download, .extract,
            .setState (some false) (some true)],
          ingested := [], earlyReturn := true }
      else
        -- lines 211-354: ingest, verify twice, record the run, smart retry
        -- (only with AI), then mark completed
        { map := set_propagation_state m1 dateStr (some false) (some false),
          events := [.setState (some true) none, .download, .extract] ++
            perFileEvents env.runAi env.csvFiles ++
            [.verifyCounts, .verifySample, .verifySample,
              .recordRun "scheduled"] ++
            (if env.runAi then [RunEvent.smartRetryPass] else []) ++
            [.setState (some false) (some false)],
          ingested := env.csvFiles, earlyReturn := false }

/-- How an invocation terminates, computed from the collaborator behaviour. -/
inductive RunOutcome
  | noData
  | completed
  | failed
  deriving DecidableEq

/-- Which terminal state an environment drives the invocation into. -/
def outcomeOf (env : PopulateEnv) : RunOutcome :=
  if env.prepOk = false then .failed
  else match env.downloadResult with
    | .error _ => .failed
    | .ok false => .noData
    | .ok true =>
      if env.extractOk = false then .failed
      else if env.csvFiles.isEmpty then .noData
      else .completed

/-- The propagation-state machine as the spec states it (spec §4.7):
`noData` and `failed` both clear `running`; `completed` clears `running` and
`noData`; `failed` leaves `noData` unchanged. -/
def specFinalPropState (before : PropState) (outcome : RunOutcome) : PropState :=
  match outcome with
  | .noData => ⟨false, true⟩
  | .completed => ⟨false, false⟩
  | .failed => ⟨false, before.noData⟩

theorem get_set_propagation_state (m : PropMap) (d : Option String)
    (r n : Option Bool) :
    (get_propagation_state (set_propagation_state m d r n) d).1 =
      (match n with
        | some nv =>
          { (match r with
              | some rv => { (get_propagation_state m d).1 with running := rv }
              | none => (get_propagation_state m d).1) with noData := nv }
        | none =>
          match r with
          | some rv => { (get_propagation_state m d).1 with running := rv }
          | none => (get_propagation_state m d).1) := by
  unfold get_propagation_state set_propagation_state
  simp only [lookupMap_insertMap, if_pos rfl, Option.getD_some]
  cases r <;> cases n <;> rfl

/-- Claim C3: in a single population invocation the propagation state
follows `idle → running → {noData | completed | failed}`: the invocation
first sets `running := true` (whenever it gets past the pre-download
preparation), entering `noData` or `failed` sets `running := false` (with
`failed` leaving `noData` unchanged), and completing successfully sets both
`running := false` and `noData := false`. -/
theorem c3_propagation_state_machine (m : PropMap) (dateStr : Option String)
    (env : PopulateEnv) :
    (get_propagation_state (populate_audits_for_date m dateStr env).map
        dateStr).1 =
      specFinalPropState (get_propagation_state m dateStr).1 (outcomeOf env) ∧
    (env.prepOk = false ∨
      (populate_audits_for_date m dateStr env).events.head? =
        some (RunEvent.setState (some true) none)) := by
  obtain ⟨prep, dl, ext, csvs, ai⟩ := env
  cases prep
  · simp [populate_audits_for_date, outcomeOf, get_set_propagation_state,
      specFinalPropState]
  · cases dl with
    | error e =>
      simp [populate_audits_for_date, outcomeOf, get_set_propagation_state,
        specFinalPropState]
    | ok b =>
      cases b
      · simp [populate_audits_for_date, outcomeOf, get_set_propagation_state,
          specFinalPropState]
      · cases ext
        · simp [populate_audits_for_date, outcomeOf, get_set_propagation_state,
            specFinalPropState]
        · by_cases hc : csvs.isEmpty <;>
            simp [hc, populate_audits_for_date, outcomeOf,
              get_set_propagation_state, specFinalPropState]

/-- Claim C4: whenever download reports no files found, `ingest` is never
called, the date's propagation state ends with `noData = true` and
`running = false`, and the invocation returns early. -/
theorem c4_no_data_short_circuit (m : PropMap) (dateStr : Option String)
    (env : PopulateEnv) (hp : env.prepOk = true)
    (hd : env.downloadResult = Except.ok false) :
    (populate_audits_for_date m dateStr env).ingested = [] ∧
    (∀ f, RunEvent.ingest f ∉ (populate_audits_for_date m dateStr env).events) ∧
    (get_propagation_state (populate_audits_for_date m dateStr env).map
        dateStr).1 = ⟨false, true⟩ ∧
    (populate_audits_for_date m dateStr env).earlyReturn = true := by
  obtain ⟨prep, dl, ext, csvs, ai⟩ := env
  simp only at hp hd
  subst hp
  subst hd
  simp [populate_audits_for_date, get_set_propagation_state]

/-- Witness for `c4_no_data_short_circuit` at a concrete environment. -/
theorem c4_no_data_short_circuit_witness :
    (populate_audits_for_date [] (some "2025-07-27")
        ⟨true, Except.ok false, true, ["a.csv"], true⟩).ingested = [] ∧
    (∀ f, RunEvent.ingest f ∉ (populate_audits_for_date [] (some "2025-07-27")
        ⟨true, Except.ok false, true, ["a.csv"], true⟩).events) ∧
    (get_propagation_state (populate_audits_for_date [] (some "2025-07-27")
        ⟨true, Except.ok false, true, ["a.csv"], true⟩).map
        (some "2025-07-27")).1 = ⟨false, true⟩ ∧
    (populate_audits_for_date [] (some "2025-07-27")
        ⟨true, Except.ok false, true, ["a.csv"], true⟩).earlyReturn = true :=
  c4_no_data_short_circuit [] (some "2025-07-27")
    ⟨true, Except.ok false, true, ["a.csv"], true⟩ rfl rfl

/-- Claim C8: in every successful population run the Run Ledger record is
written only after all sources are ingested and both verification passes
complete, and the smart-retry pass happens only after the ledger write. -/
theorem c8_ledger_write_ordering (m : PropMap) (dateStr : Option String)
    (env : PopulateEnv) (hp : env.prepOk = true)
    (hd : env.downloadResult = Except.ok true) (he : env.extractOk = true)
    (hc : env.csvFiles ≠ []) :
    ∃ pre post,
      (populate_audits_for_date m dateStr env).events =
        pre ++ RunEvent.recordRun "scheduled" :: post ∧
      (∀ f ∈ env.csvFiles, RunEvent.ingest f ∈ pre) ∧
      RunEvent.verifyCounts ∈ pre ∧
      RunEvent.verifySample ∈ pre ∧
      (∀ t, RunEvent.recordRun t ∉ pre) ∧
      (∀ f, RunEvent.ingest f ∉ post) ∧
      RunEvent.verifyCounts ∉ post ∧
      RunEvent.verifySample ∉ post ∧
      RunEvent.smartRetryPass ∉ pre := by
  obtain ⟨prep, dl, ext, csvs, ai⟩ := env
  simp only at hp hd he hc
  subst hp
  subst hd
  subst he
  have hce : csvs.isEmpty = false := by
    cases csvs with
    | nil => exact absurd rfl hc
    | cons a t => rfl
  refine ⟨[.setState (some true) none, .download, .extract] ++
      perFileEvents ai csvs ++ [.verifyCounts, .verifySample, .verifySample],
    (if ai then [RunEvent.smartRetryPass] else []) ++
      [.setState (some false) (some false)], ?_, ?_, ?_, ?_, ?_, ?_, ?_, ?_, ?_⟩
  · simp [populate_audits_for_date, hce]
  · intro f hf
    simp only [List.mem_append]
    refine Or.inl (Or.inr ?_)
    simp only [perFileEvents, List.mem_flatMap]
    exact ⟨f, hf, by cases ai <;> simp⟩
  · simp
  · simp
  · intro t
    cases ai <;> simp [perFileEvents, List.mem_flatMap]
  · intro f
    cases ai <;> simp
  · cases ai <;> simp
  · cases ai <;> simp
  · cases ai <;> simp [perFileEvents, List.mem_flatMap]

/-- Witness for `c8_ledger_write_ordering` at a concrete environment. -/
theorem c8_ledger_write_ordering_witness :
    ∃ pre post,
      (populate_audits_for_date [] none
          ⟨true, Except.ok true, true, ["a.csv", "b.csv"], true⟩).events =
        pre ++ RunEvent.recordRun "scheduled" :: post ∧
      (∀ f ∈ ["a.csv", "b.csv"], RunEvent.ingest f ∈ pre) ∧
      RunEvent.verifyCounts ∈ pre ∧
      RunEvent.verifySample ∈ pre ∧
      (∀ t, RunEvent.recordRun t ∉ pre) ∧
      (∀ f, RunEvent.ingest f ∉ post) ∧
      RunEvent.verifyCounts ∉ post ∧
      RunEvent.verifySample ∉ post ∧
      RunEvent.smartRetryPass ∉ pre :=
  c8_ledger_write_ordering [] none
    ⟨true, Except.ok true, true, ["a.csv", "b.csv"], true⟩ rfl rfl rfl
    (by simp)

/-! ## Job lock guard (scheduler.py lines 25, 140-146)

The guard

    if _job_lock.locked(): return        (lines 140-144)
    async with _job_lock: ...            (line 146)

uses an `asyncio.Lock`, which is not thread-safe.  The routes layer invokes
`populate_audits_for_date` from fresh OS threads, each under its own event
loop via `asyncio.run` inside `threading.Thread` (routes.py lines 157, 238,
495, 1058) — these are the manual triggers the population entry point races
against cron and the health check.  Across threads the `locked()` check at
line 140, the read of `_locked` in the acquire fast path, and the plain
attribute write `_locked = True` are three separate unsynchronized
operations on the shared lock object, so the steps of two racing
invocations can interleave between any of them.  Each invocation is
modelled as four steps: the guard check, the acquire fast-path read, the
acquire write, and the critical-section body that performs the pipeline
(download, state writes) and releases the lock. -/

/-- Program counter of one invocation racing from its own thread:
`guardCheck` is line 140, `acqRead`/`acqWrite` the two halves of the
acquire fast path, `body` the critical section; `skipped` is the clean
return at line 144, `blocked` an acquire that observed the lock held
(it suspends or errors, never the clean skip of line 144). -/
inductive ThreadPhase
  | guardCheck
  | acqRead
  | acqWrite
  | body
  | done
  | skipped
  | blocked
  deriving DecidableEq, Repr

/-- Two racing invocations A and B of the population entry point: the
shared `_locked` flag, each invocation's phase, and instrumentation
counting each invocation's download calls and state writes. -/
structure ThreadSys where
  lockHeld : Bool
  pcA : ThreadPhase
  pcB : ThreadPhase
  downloadsA : Nat
  downloadsB : Nat
  writesA : Nat
  writesB : Nat
  deriving DecidableEq, Repr

/-- Both invocations start at the guard with the lock free. -/
def initThreadSys : ThreadSys := ⟨false, .guardCheck, .guardCheck, 0, 0, 0, 0⟩

/-- Run the next step of invocation A (`taskA = true`) or B.  The guard
check skips when the lock is held (lines 140-144) and otherwise proceeds to
the acquire; the acquire read blocks when the lock is held and otherwise
proceeds to the write; the write sets the flag unconditionally (the plain
`_locked = True` of the fast path, its guarding read already past); the
body performs the pipeline and releases the lock. -/
def threadStep (s : ThreadSys) (taskA : Bool) : ThreadSys :=
  if taskA then
    match s.pcA with
    | .guardCheck =>
      if s.lockHeld then { s with pcA := .skipped }
      else { s with pcA := .acqRead }
    | .acqRead =>
      if s.lockHeld then { s with pcA := .blocked }
      else { s with pcA := .acqWrite }
    | .acqWrite => { s with lockHeld := true, pcA := .body }
    | .body =>
      { s with
        pcA := .done, lockHeld := false,
        downloadsA := s.downloadsA + 1, writesA := s.writesA + 1 }
    | .done => s
    | .skipped => s
    | .blocked => s
  else
    match s.pcB with
    | .guardCheck =>
      if s.lockHeld then { s with pcB := .skipped }
      else { s with pcB := .acqRead }
    | .acqRead =>
      if s.lockHeld then { s with pcB := .blocked }
      else { s with pcB := .acqWrite }
    | .acqWrite => { s with lockHeld := true, pcB := .body }
    | .body =>
      { s with
        pcB := .done, lockHeld := false,
        downloadsB := s.downloadsB + 1, writesB := s.writesB + 1 }
    | .done => s
    | .skipped => s
    | .blocked => s

/-- Execute an interleaving of the two invocations' steps. -/
def threadRun (sched : List Bool) : ThreadSys :=
  sched.foldl threadStep initThreadSys

/-- Claim C1 fails on the code (code bug): two invocations racing from
separate OS threads can interleave as A guard check, B guard check,
A acquire read, B acquire read, A acquire write, B acquire write, A body,
B body — both pass the unsynchronized guard, both execute the population
pipeline and call download, and neither observes lock-held — where the
claim (and spec §4.1, §8) requires exactly one download with the other
invocation skipping.  Spec §9 itself flags the fire-and-forget threads
racing the asyncio lock as the defect to correct. -/
theorem c1_cross_thread_race_double_download :
    (threadRun [true, false, true, false, true, false, true, false]).pcA =
      .done ∧
    (threadRun [true, false, true, false, true, false, true, false]).pcB =
      .done ∧
    (threadRun [true, false, true, false, true, false, true, false]).downloadsA
      = 1 ∧
    (threadRun [true, false, true, false, true, false, true, false]).downloadsB
      = 1 ∧
    (threadRun [true, false, true, false, true, false, true, false]).downloadsA
        +
      (threadRun [true, false, true, false, true, false, true, false]).downloadsB
      ≠ 1 := by
  decide

end MetronAuditOps
